import Mathlib

/-!
Shallow embedding of the TabStateSync library (src/TabStateSync.ts and
src/index.ts) together with proofs about the claims of its specification.

Modelling conventions:
* JavaScript runtime values that can travel through the library are modelled
  by the inductive type JVal (JSON values plus the distinguished value
  undefined).
* Strings that are manipulated character by character (the obfuscation
  routines) are modelled as lists of natural numbers, one per UTF-16 code
  unit, exactly as charCodeAt / fromCharCode see them.
* Ambient host capabilities (BroadcastChannel availability, the Safari
  check, JSON.stringify, JSON.parse, localStorage quota behaviour and
  Date.now) are collected in a Host record and passed explicitly, following
  the design note of the spec that treats them as an injectable capability
  interface.  localStorage itself is a function from keys to optional
  stored text.
* A thrown JavaScript exception is modelled with Except: Except.error
  carries the instance state at the moment the exception escapes.
* Subscriber callbacks are identified by numbers; an invocation of a
  callback is recorded as a pair of the callback id and the value it was
  invoked with.
-/

namespace TabStateSyncModel

/-- JavaScript values as far as the library observes them: the JSON values
plus undefined, with numbers modelled as integers. -/
inductive JVal where
  | jundefined : JVal
  | jnull : JVal
  | jbool : Bool → JVal
  | jnum : Int → JVal
  | jstr : String → JVal
  | jarr : List JVal → JVal
  | jobj : List (String × JVal) → JVal

/-- UTF-16 code units of a string, as charCodeAt sees them. -/
def strCodes (s : String) : List Nat :=
  s.data.map Char.toNat

/-- A JavaScript string is falsy exactly when it is null/undefined or empty;
this is the test performed by the guards (!e.newValue) and (raw && ...). -/
def strFalsy : Option (List Nat) → Bool
  | none => true
  | some cs => cs.isEmpty

/-! Base64, modelling the host primitives btoa and atob used by the
obfuscation routines.  btoa throws on any input code unit above 255; this
is modelled by returning none. -/

/-- The base64 alphabet: sextet index to ASCII code. -/
def sextetToAscii (n : Nat) : Nat :=
  if n < 26 then 65 + n
  else if n < 52 then 71 + n
  else if n < 62 then n - 4
  else if n = 62 then 43
  else 47

/-- Partial inverse of the base64 alphabet: ASCII code to sextet index. -/
def asciiToSextet (c : Nat) : Option Nat :=
  if 65 ≤ c ∧ c ≤ 90 then some (c - 65)
  else if 97 ≤ c ∧ c ≤ 122 then some (c - 71)
  else if 48 ≤ c ∧ c ≤ 57 then some (c + 4)
  else if c = 43 then some 62
  else if c = 47 then some 63
  else none

/-- Base64 encoding of a byte list (ASCII code 61 is the padding sign). -/
def b64encode : List Nat → List Nat
  | [] => []
  | [b0] =>
      [sextetToAscii (b0 / 4), sextetToAscii (b0 % 4 * 16), 61, 61]
  | [b0, b1] =>
      [sextetToAscii (b0 / 4), sextetToAscii (b0 % 4 * 16 + b1 / 16),
       sextetToAscii (b1 % 16 * 4), 61]
  | b0 :: b1 :: b2 :: rest =>
      sextetToAscii (b0 / 4) :: sextetToAscii (b0 % 4 * 16 + b1 / 16) ::
      sextetToAscii (b1 % 16 * 4 + b2 / 64) :: sextetToAscii (b2 % 64) ::
      b64encode rest

/-- Base64 decoding; none models the DOMException thrown by atob on
malformed input. -/
def b64decode : List Nat → Option (List Nat)
  | [] => some []
  | a :: b :: c :: d :: rest =>
      match asciiToSextet a, asciiToSextet b with
      | some s0, some s1 =>
          if c = 61 then
            if d = 61 ∧ rest = [] then some [s0 * 4 + s1 / 16] else none
          else
            match asciiToSextet c with
            | some s2 =>
                if d = 61 then
                  if rest = [] then
                    some [s0 * 4 + s1 / 16, s1 % 16 * 16 + s2 / 4]
                  else none
                else
                  match asciiToSextet d, b64decode rest with
                  | some s3, some bs =>
                      some ((s0 * 4 + s1 / 16) :: (s1 % 16 * 16 + s2 / 4) ::
                            (s2 % 4 * 64 + s3) :: bs)
                  | _, _ => none
            | none => none
      | _, _ => none
  | _ => none

/-- The host primitive btoa: throws (none) when a code unit exceeds 255. -/
def btoa (codes : List Nat) : Option (List Nat) :=
  if codes.all (fun c => c < 256) then some (b64encode codes) else none

/-- The host primitive atob. -/
def atob (codes : List Nat) : Option (List Nat) :=
  b64decode codes

/-! The configuration records of the library. -/

/-- TabStateSyncOptions: every field optional, mirroring the source
interface. -/
structure TabStateSyncOptions where
  «namespace» : Option String := none
  enableEncryption : Option Bool := none
  encryptionKey : Option String := none
  debug : Option Bool := none

/-- Required TabStateSyncOptions, the type of the private options field. -/
structure RequiredOptions where
  «namespace» : String
  enableEncryption : Bool
  encryptionKey : String
  debug : Bool

/-- Default resolution performed at the top of the constructor. -/
def resolveOptions (o : TabStateSyncOptions) : RequiredOptions :=
  { «namespace» := o.«namespace».getD "tss"
    enableEncryption := o.enableEncryption.getD false
    encryptionKey := o.encryptionKey.getD "change-this-key"
    debug := o.debug.getD false }

/-- The static SCHEMA_VERSION constant. -/
def SCHEMA_VERSION : Int := 1

/-- The SyncMessage object built by set: value, ts and schema version v. -/
def mkSyncMessage (value : JVal) (now : Int) : JVal :=
  .jobj [("value", value), ("ts", .jnum now), ("v", .jnum SCHEMA_VERSION)]

/-- isValidMessage, the validation applied to BroadcastChannel payloads:
data is accepted iff it is neither null nor undefined. -/
def isValidMessage : JVal → Bool
  | .jundefined => false
  | .jnull => false
  | _ => true

/-- isValidSyncMessage, the validation applied to parsed store payloads:
the parsed value must be an object with a value property, a numeric ts
property and a numeric v property.  Any other parsed value (null, number,
string, boolean, array) is rejected. -/
def isValidSyncMessage : JVal → Bool
  | .jobj fs =>
      (fs.lookup "value").isSome &&
      (match fs.lookup "ts" with | some (.jnum _) => true | _ => false) &&
      (match fs.lookup "v" with | some (.jnum _) => true | _ => false)
  | _ => false

/-- Reading the value property of a parsed message object. -/
def msgValue : JVal → JVal
  | .jobj fs => (fs.lookup "value").getD .jundefined
  | _ => .jundefined

/-! The obfuscation routines encrypt and decrypt. -/

/-- The XOR loop shared by encrypt and decrypt, with the running index made
explicit: position i is combined with key code i mod key length. An absent
key code behaves as 0, matching the NaN-to-zero coercion of the bitwise
XOR in the source. -/
def xorFrom (key : List Nat) (i : Nat) : List Nat → List Nat
  | [] => []
  | c :: rest => (c ^^^ key.getD (i % key.length) 0) :: xorFrom key (i + 1) rest

/-- XOR of a text with the repeating key, starting at index 0. -/
def xorWithKey (key text : List Nat) : List Nat :=
  xorFrom key 0 text

/-- encrypt: identity when encryption is disabled; otherwise XOR with the
key and base64 encode.  none models the exception btoa raises on a code
unit above 255 (encrypt itself has no try/catch). -/
def encrypt (o : RequiredOptions) (text : List Nat) : Option (List Nat) :=
  if !o.enableEncryption then some text
  else btoa (xorWithKey (strCodes o.encryptionKey) text)

/-- decrypt: identity when encryption is disabled; otherwise base64 decode
and XOR with the key.  The surrounding try/catch of the source makes a
decode failure fall back to the original text, so decrypt is total. -/
def decrypt (o : RequiredOptions) (text : List Nat) : List Nat :=
  if !o.enableEncryption then text
  else
    match atob text with
    | some decoded => xorWithKey (strCodes o.encryptionKey) decoded
    | none => text

/-! The host environment and the instance state. -/

/-- Ambient host capabilities, passed explicitly to the model. -/
structure Host where
  hasBroadcastChannel : Bool
  safari : Bool
  stringify : JVal → List Nat
  jparse : List Nat → Option JVal
  setItemOk : String → List Nat → Bool
  now : Int

/-- A localStorage snapshot: stored text per key. -/
def Store : Type := String → Option (List Nat)

/-- The private fields of a TabStateSync instance. -/
structure TSState where
  key : String
  channel : Option String
  callbacks : List Nat
  lastValue : Option JVal
  isBroadcastChannel : Bool
  isSetting : Bool
  destroyed : Bool
  pollingInterval : Option Nat
  lastPolledValue : Option (List Nat)
  options : RequiredOptions

/-- The constructor: resolves options, prefixes the key with the
namespace, and wires exactly one transport.  The store argument is the
current localStorage content, read once to initialise lastPolledValue on
the polling transport. -/
def construct (host : Host) (key : String) (options : TabStateSyncOptions)
    (store : Store) : TSState :=
  let opts := resolveOptions options
  let rkey := opts.«namespace» ++ ":" ++ key
  { key := rkey
    channel := if host.hasBroadcastChannel then some key else none
    callbacks := []
    lastValue := none
    isBroadcastChannel := host.hasBroadcastChannel
    isSetting := false
    destroyed := false
    pollingInterval :=
      if !host.hasBroadcastChannel && host.safari then some 500 else none
    lastPolledValue :=
      if !host.hasBroadcastChannel && host.safari then store rkey else none
    options := opts }

/-- The convenience factory of src/index.ts: forwards only the key. -/
def createTabStateSync (host : Host) (key : String) (store : Store) : TSState :=
  construct host key {} store

/-- subscribe: set insertion (duplicate adds are idempotent). -/
def subscribe (s : TSState) (cb : Nat) : TSState :=
  if cb ∈ s.callbacks then s else { s with callbacks := s.callbacks ++ [cb] }

/-- unsubscribe: set removal. -/
def unsubscribe (s : TSState) (cb : Nat) : TSState :=
  { s with callbacks := s.callbacks.filter (fun c => c ≠ cb) }

/-- Outcome of an inbound handler invocation: the updated state and the
callback invocations it performed. -/
structure InboundResult where
  state : TSState
  notified : List (Nat × JVal)

/-- notify: records the value and invokes every current subscriber. -/
def notifyResult (s : TSState) (value : JVal) : InboundResult :=
  ⟨{ s with lastValue := some value },
   s.callbacks.map (fun cb => (cb, value))⟩

/-- Outcome of a successful set call: the updated state, the messages
posted on the broadcast channel, the store writes performed, and the
synchronous local callback invocations. -/
structure SetResult where
  state : TSState
  posted : List (String × JVal)
  writes : List (String × List Nat)
  notified : List (Nat × JVal)

/-- set: no-op when destroyed; otherwise record the value, raise the
self-write flag, publish on the active transport and notify local
subscribers synchronously.  Except.error s means an exception escaped to
the caller leaving the instance in state s; the store path has no
try/catch, so a serialization (btoa) or quota failure escapes before the
local notification happens. -/
def set (host : Host) (s : TSState) (value : JVal) :
    Except TSState SetResult :=
  if s.destroyed then .ok ⟨s, [], [], []⟩
  else
    let s1 := { s with lastValue := some value, isSetting := true }
    let message := mkSyncMessage value host.now
    if s1.isBroadcastChannel && s1.channel.isSome then
      let r := notifyResult s1 value
      .ok ⟨r.state, [(s1.channel.getD "", value)], [], r.notified⟩
    else
      let serialized := host.stringify message
      match encrypt s1.options serialized with
      | none => .error s1
      | some dataToStore =>
          if host.setItemOk s1.key dataToStore then
            let s2 :=
              if host.safari then { s1 with lastPolledValue := some dataToStore }
              else s1
            let r := notifyResult s2 value
            .ok ⟨r.state, [], [(s1.key, dataToStore)], r.notified⟩
          else .error s1

/-- The deferred setTimeout callback clearing the self-write flag. -/
def clearSettingTick (s : TSState) : TSState :=
  { s with isSetting := false }

/-- The BroadcastChannel onmessage handler: drop while the self-write flag
is up, drop invalid payloads, otherwise notify. -/
def onMessage (s : TSState) (data : JVal) : InboundResult :=
  if s.isSetting then ⟨s, []⟩
  else if !isValidMessage data then ⟨s, []⟩
  else notifyResult s data

/-- Whether a message posted on a broadcast channel reaches this instance:
the instance must be on the broadcast transport with an open channel of
the same name. -/
def receivesBroadcast (s : TSState) (m : String × JVal) : Bool :=
  s.isBroadcastChannel && s.channel == some m.1 && !s.destroyed

/-- Delivery of one posted broadcast message to an instance. -/
def deliverBroadcast (m : String × JVal) (s : TSState) : InboundResult :=
  if receivesBroadcast s m then onMessage s m.2 else ⟨s, []⟩

/-- The body of the try block shared by the storage-event handler and the
polling handler: decrypt, parse, validate, notify.  Except.error models
the exception JSON.parse throws on unparsable text, which both call sites
catch. -/
def inboundTry (host : Host) (s : TSState) (raw : List Nat) :
    Except Unit InboundResult :=
  let decryptedData := decrypt s.options raw
  match host.jparse decryptedData with
  | none => .error ()
  | some parsed =>
      if !isValidSyncMessage parsed then .ok ⟨s, []⟩
      else .ok (notifyResult s (msgValue parsed))

/-- The storage-event handler onStorage: ignore events for other keys or
with a falsy new value, then run the guarded pipeline; a caught exception
leaves the state untouched and notifies nobody.  The handler is a total
function: no exception escapes to the host. -/
def onStorage (host : Host) (s : TSState) (eKey : String)
    (eNewValue : Option (List Nat)) : InboundResult :=
  if eKey != s.key || strFalsy eNewValue then ⟨s, []⟩
  else
    match inboundTry host s (eNewValue.getD []) with
    | .ok r => r
    | .error _ => ⟨s, []⟩

/-- One firing of the 500 ms polling callback: read the stored text, skip
when it is falsy or unchanged since the last poll, otherwise remember it
and run the guarded pipeline.  Also total: no exception escapes. -/
def pollTick (host : Host) (s : TSState) (store : Store) : InboundResult :=
  match store s.key with
  | none => ⟨s, []⟩
  | some raw =>
      if raw.isEmpty || some raw == s.lastPolledValue then ⟨s, []⟩
      else
        let s1 := { s with lastPolledValue := some raw }
        match inboundTry host s1 raw with
        | .ok r => r
        | .error _ => ⟨s1, []⟩

/-- destroy: release the active transport resource, clear the subscriber
set and raise the destroyed flag. -/
def destroy (host : Host) (s : TSState) : TSState :=
  let s1 :=
    if s.isBroadcastChannel && s.channel.isSome then s
    else if host.safari && s.pollingInterval.isSome then
      { s with pollingInterval := none }
    else s
  { s1 with callbacks := [], destroyed := true }

/-- Applying a list of store writes to a store snapshot. -/
def storeAfterWrites (store : Store) (writes : List (String × List Nat)) :
    Store :=
  writes.foldl (fun st w => fun k => if k = w.1 then some w.2 else st k) store

/-- The state reached by a set call, whether it returned or threw. -/
def setEndState (r : Except TSState SetResult) : TSState :=
  match r with
  | .ok r => r.state
  | .error s => s

/-- The broadcast messages posted by a set call (none when it threw). -/
def setPosted (r : Except TSState SetResult) : List (String × JVal) :=
  match r with
  | .ok r => r.posted
  | .error _ => []

/-- The store writes performed by a set call (none when it threw). -/
def setWrites (r : Except TSState SetResult) : List (String × List Nat) :=
  match r with
  | .ok r => r.writes
  | .error _ => []

/-- The local subscriber invocations of a set call (none when it threw,
because the store path throws before reaching the notify step). -/
def setNotified (r : Except TSState SetResult) : List (Nat × JVal) :=
  match r with
  | .ok r => r.notified
  | .error _ => []

/-- Whether a set call threw an exception to its caller. -/
def setThrew (r : Except TSState SetResult) : Bool :=
  match r with
  | .ok _ => false
  | .error _ => true

/-! Helper lemmas about the obfuscation routines. -/

theorem asciiToSextet_sextetToAscii : ∀ n, n < 64 →
    asciiToSextet (sextetToAscii n) = some n := by
  decide

theorem sextetToAscii_ne_pad : ∀ n, n < 64 → sextetToAscii n ≠ 61 := by
  decide

theorem b64decode_b64encode (bs : List Nat) (h : ∀ b ∈ bs, b < 256) :
    b64decode (b64encode bs) = some bs := by
  induction bs using b64encode.induct with
  | case1 => simp [b64encode, b64decode]
  | case2 b0 =>
      have hb0 : b0 < 256 := h b0 (by simp)
      have h0 : b0 / 4 < 64 := by omega
      have h1 : b0 % 4 * 16 < 64 := by omega
      have e0 : b0 / 4 * 4 + b0 % 4 * 16 / 16 = b0 := by omega
      simp only [b64encode, b64decode]
      rw [asciiToSextet_sextetToAscii _ h0, asciiToSextet_sextetToAscii _ h1]
      simp
      all_goals omega
  | case3 b0 b1 =>
      have hb0 : b0 < 256 := h b0 (by simp)
      have hb1 : b1 < 256 := h b1 (by simp)
      have h0 : b0 / 4 < 64 := by omega
      have h1 : b0 % 4 * 16 + b1 / 16 < 64 := by omega
      have h2 : b1 % 16 * 4 < 64 := by omega
      have e0 : b0 / 4 * 4 + (b0 % 4 * 16 + b1 / 16) / 16 = b0 := by omega
      have e1 : (b0 % 4 * 16 + b1 / 16) % 16 * 16 + b1 % 16 * 4 / 4 = b1 := by
        omega
      simp only [b64encode, b64decode]
      rw [asciiToSextet_sextetToAscii _ h0, asciiToSextet_sextetToAscii _ h1]
      rw [asciiToSextet_sextetToAscii _ h2]
      simp [sextetToAscii_ne_pad _ h2]
      all_goals omega
  | case4 b0 b1 b2 rest ih =>
      have hb0 : b0 < 256 := h b0 (by simp)
      have hb1 : b1 < 256 := h b1 (by simp)
      have hb2 : b2 < 256 := h b2 (by simp)
      have hrest : ∀ b ∈ rest, b < 256 := fun b hb => h b (by simp [hb])
      have h0 : b0 / 4 < 64 := by omega
      have h1 : b0 % 4 * 16 + b1 / 16 < 64 := by omega
      have h2 : b1 % 16 * 4 + b2 / 64 < 64 := by omega
      have h3 : b2 % 64 < 64 := by omega
      have e0 : b0 / 4 * 4 + (b0 % 4 * 16 + b1 / 16) / 16 = b0 := by omega
      have e1 : (b0 % 4 * 16 + b1 / 16) % 16 * 16 +
          (b1 % 16 * 4 + b2 / 64) / 4 = b1 := by omega
      have e2 : (b1 % 16 * 4 + b2 / 64) % 4 * 64 + b2 % 64 = b2 := by omega
      simp only [b64encode, b64decode]
      rw [asciiToSextet_sextetToAscii _ h0, asciiToSextet_sextetToAscii _ h1]
      rw [asciiToSextet_sextetToAscii _ h2]
      rw [asciiToSextet_sextetToAscii _ h3, ih hrest]
      simp [sextetToAscii_ne_pad _ h2, sextetToAscii_ne_pad _ h3]
      all_goals omega

theorem xorFrom_xorFrom (key : List Nat) (i : Nat) (t : List Nat) :
    xorFrom key i (xorFrom key i t) = t := by
  induction t generalizing i with
  | nil => simp [xorFrom]
  | cons c rest ih => simp [xorFrom, ih, Nat.xor_cancel_right]

theorem getD_lt_256 (l : List Nat) (h : ∀ c ∈ l, c < 256) (j : Nat) :
    l.getD j 0 < 256 := by
  rcases hj : l[j]? with _ | c
  · simp [List.getD, hj]
  · have hc : c ∈ l := List.getElem?_mem hj
    have := h c hc
    simp [List.getD, hj, this]

theorem xorFrom_lt_256 (key : List Nat) (hk : ∀ c ∈ key, c < 256)
    (t : List Nat) (ht : ∀ c ∈ t, c < 256) (i : Nat) :
    ∀ c ∈ xorFrom key i t, c < 256 := by
  induction t generalizing i with
  | nil => simp [xorFrom]
  | cons c rest ih =>
      intro x hx
      simp only [xorFrom, List.mem_cons] at hx
      rcases hx with h | h
      · subst h
        have hc : c < 256 := ht c (by simp)
        have hkd : key.getD ((i : Nat) % key.length) 0 < 256 :=
          getD_lt_256 key hk _
        have := Nat.xor_lt_two_pow (n := 8) hc hkd
        simpa using this
      · exact ih (fun c hc => ht c (by simp [hc])) (i + 1) x h

/-! Helper lemmas about resolved storage keys. -/

theorem colon_append_inj (a : List Char) : ∀ (b x y : List Char),
    ':' ∉ a → ':' ∉ b → a ++ ':' :: x = b ++ ':' :: y → a = b ∧ x = y := by
  induction a with
  | nil =>
      intro b x y _ hb h
      cases b with
      | nil => simpa using h
      | cons c bs =>
          simp only [List.nil_append, List.cons_append, List.cons.injEq] at h
          exact absurd (h.1 ▸ List.mem_cons_self ':' bs) hb
  | cons c as ih =>
      intro b x y ha hb h
      cases b with
      | nil =>
          simp only [List.nil_append, List.cons_append, List.cons.injEq] at h
          apply absurd _ ha
          rw [h.1]
          exact List.mem_cons_self ':' as
      | cons c2 bs =>
          simp only [List.cons_append, List.cons.injEq] at h
          simp only [List.mem_cons, not_or] at ha hb
          obtain ⟨h1, h2⟩ := ih bs x y ha.2 hb.2 h.2
          exact ⟨by simp [h.1, h1], h2⟩

theorem resolved_key_inj (ns1 k1 ns2 k2 : String)
    (h1 : ':' ∉ ns1.data) (h2 : ':' ∉ ns2.data)
    (h : ns1 ++ ":" ++ k1 = ns2 ++ ":" ++ k2) : ns1 = ns2 ∧ k1 = k2 := by
  have hd := congrArg String.data h
  simp only [String.data_append] at hd
  have hd2 : ns1.data ++ ':' :: k1.data = ns2.data ++ ':' :: k2.data := by
    simpa using hd
  obtain ⟨ha, hb⟩ := colon_append_inj ns1.data ns2.data k1.data k2.data h1 h2 hd2
  exact ⟨String.ext ha, String.ext hb⟩

theorem resolved_key_ne (ns1 k1 ns2 k2 : String)
    (h1 : ':' ∉ ns1.data) (h2 : ':' ∉ ns2.data)
    (h : ns1 ≠ ns2 ∨ k1 ≠ k2) :
    (ns1 ++ ":" ++ k1 : String) ≠ ns2 ++ ":" ++ k2 := by
  intro he
  obtain ⟨ha, hb⟩ := resolved_key_inj ns1 k1 ns2 k2 h1 h2 he
  rcases h with h | h
  · exact h ha
  · exact h hb

/-! Concrete hosts and inputs used by counterexamples and witnesses. -/

/-- The empty localStorage snapshot. -/
def emptyStore : Store := fun _ => none

/-- A demonstration payload value. -/
def demoVal : JVal := .jstr "dark"

/-- The serialized text a demonstration host produces. -/
def demoRaw : List Nat := strCodes "payload"

/-- A demonstration JSON.parse: recognises exactly the demonstration
serialized text, as the real JSON.parse would on the text the real
JSON.stringify produced. -/
def demoParse : List Nat → Option JVal :=
  fun raw => if raw == demoRaw then some (mkSyncMessage demoVal 5) else none

/-- A demonstration JSON.stringify producing the demonstration text. -/
def demoStringify : JVal → List Nat := fun _ => demoRaw

/-- A host with BroadcastChannel support. -/
def hostBC : Host :=
  { hasBroadcastChannel := true, safari := false, stringify := demoStringify
    jparse := demoParse, setItemOk := fun _ _ => true, now := 5 }

/-- A host without BroadcastChannel, with reliable storage events. -/
def hostStorage : Host := { hostBC with hasBroadcastChannel := false }

/-- The storage-event host, but every store write fails (quota exceeded). -/
def hostStorageFail : Host := { hostStorage with setItemOk := fun _ _ => false }

/-- A Safari-like host: no BroadcastChannel, polling transport. -/
def hostPolling : Host := { hostStorage with safari := true }

/-! Claim C1. -/

/-- Claim C1 is false on the code: on a store-based transport with a
non-destroyed instance that has a subscriber, a failing store write (quota
exceeded) makes set throw to its caller (setThrew is true) and the
synchronous local notification does not happen, because the write in set
is not wrapped in any try/catch and the notify step comes after it. -/
theorem C1_counterexample :
    (subscribe (construct hostStorageFail "k" {} emptyStore) 0).destroyed
      = false ∧
    setThrew (set hostStorageFail
      (subscribe (construct hostStorageFail "k" {} emptyStore) 0) demoVal)
      = true ∧
    setNotified (set hostStorageFail
      (subscribe (construct hostStorageFail "k" {} emptyStore) 0) demoVal)
      = [] := by
  refine ⟨rfl, rfl, rfl⟩

/-- Claim C1 amended: on a store-based transport, a failing store write
makes set propagate the exception to the caller, leaving the value
recorded and the self-write flag raised but skipping the local
notification; the synchronous local notification of all subscribers
happens exactly when serialization and the store write succeed. -/
theorem C1_set_store_write (host : Host) (s : TSState) (v : JVal)
    (data : List Nat)
    (hbc : s.isBroadcastChannel = false)
    (hd : s.destroyed = false)
    (henc : encrypt s.options (host.stringify (mkSyncMessage v host.now))
      = some data) :
    (host.setItemOk s.key data = false →
      set host s v = .error { s with lastValue := some v, isSetting := true }) ∧
    (host.setItemOk s.key data = true →
      setNotified (set host s v) = s.callbacks.map (fun cb => (cb, v))) := by
  constructor
  · intro hfail
    simp [set, hd, hbc, henc, hfail]
  · intro hok
    rcases hsaf : host.safari with _ | _ <;>
      simp [set, setNotified, notifyResult, hd, hbc, henc, hok, hsaf]

/-- Witness for the amended claim C1 at a concrete failing write. -/
theorem C1_set_store_write_witness :
    set hostStorageFail
      (subscribe (construct hostStorageFail "k2" {} emptyStore) 1)
      (.jstr "w")
    = .error { subscribe (construct hostStorageFail "k2" {} emptyStore) 1 with
               lastValue := some (.jstr "w"), isSetting := true } :=
  (C1_set_store_write hostStorageFail
    (subscribe (construct hostStorageFail "k2" {} emptyStore) 1)
    (.jstr "w") demoRaw rfl rfl rfl).1 rfl

/-! Claim C2. -/

/-- Validation and value lemmas about the message object built by set. -/
theorem isValidSyncMessage_mkSyncMessage (v : JVal) (now : Int) :
    isValidSyncMessage (mkSyncMessage v now) = true := rfl

theorem msgValue_mkSyncMessage (v : JVal) (now : Int) :
    msgValue (mkSyncMessage v now) = v := rfl

/-- Claim C2 is false on the code: on the broadcast transport a null
payload posted by a same-key peer is rejected by isValidMessage
(data must be neither null nor undefined), so the subscriber of the
receiving instance is never invoked even though a subscriber exists. -/
theorem C2_counterexample :
    (subscribe (construct hostBC "theme" {} emptyStore) 0).callbacks = [0] ∧
    setPosted (set hostBC (construct hostBC "theme" {} emptyStore) .jnull)
      = [("theme", .jnull)] ∧
    (deliverBroadcast ("theme", .jnull)
        (subscribe (construct hostBC "theme" {} emptyStore) 0)).notified
      = [] := by
  refine ⟨rfl, rfl, rfl⟩

/-- Claim C2 amended: on the broadcast transport, a set on A posts the raw
value on the channel named by the shared key and every subscriber of a
same-key instance B is invoked with it, for every value that passes the
presence check (neither null nor undefined); a null payload is dropped.
On the storage-event transport, delivery holds for every value including
null: the write of A lands under the resolved key and the storage handler
of a same-key instance B invokes every subscriber of B with the value,
provided the host JSON round trip reproduces the message. -/
theorem C2_delivery (host : Host) :
    (∀ (k : String) (optsA optsB : TabStateSyncOptions)
        (storeA storeB : Store) (v : JVal) (cb : Nat),
        host.hasBroadcastChannel = true →
        isValidMessage v = true →
        setPosted (set host (construct host k optsA storeA) v) = [(k, v)] ∧
        (deliverBroadcast (k, v)
            (subscribe (construct host k optsB storeB) cb)).notified
          = [(cb, v)]) ∧
    (∀ (k : String) (opts : TabStateSyncOptions) (storeA : Store)
        (B : TSState) (v : JVal),
        host.hasBroadcastChannel = false →
        (resolveOptions opts).enableEncryption = false →
        B.options.enableEncryption = false →
        B.key = (construct host k opts storeA).key →
        host.jparse (host.stringify (mkSyncMessage v host.now))
          = some (mkSyncMessage v host.now) →
        host.stringify (mkSyncMessage v host.now) ≠ [] →
        host.setItemOk (construct host k opts storeA).key
          (host.stringify (mkSyncMessage v host.now)) = true →
        setWrites (set host (construct host k opts storeA) v)
          = [((construct host k opts storeA).key,
              host.stringify (mkSyncMessage v host.now))] ∧
        (onStorage host B (construct host k opts storeA).key
            (some (host.stringify (mkSyncMessage v host.now)))).notified
          = B.callbacks.map (fun c => (c, v))) := by
  constructor
  · intro k optsA optsB storeA storeB v cb hbc hv
    constructor
    · simp [set, construct, setPosted, hbc, notifyResult]
    · simp [deliverBroadcast, receivesBroadcast, construct, subscribe,
        onMessage, hv, notifyResult, hbc]
  · intro k opts storeA B v hbc hoe hBe hkey hparse hne hok
    simp only [construct] at hkey hok ⊢
    constructor
    · simp [set, setWrites, hbc, encrypt, hoe, hok]
    · rw [← hkey]
      have hraw : (host.stringify (mkSyncMessage v host.now)).isEmpty
          = false := by simp [hne]
      simp [onStorage, strFalsy, hraw, inboundTry, decrypt, hBe, hparse,
        isValidSyncMessage_mkSyncMessage, msgValue_mkSyncMessage,
        notifyResult]

/-- Witness for the amended claim C2: a concrete broadcast delivery of a
string value and a concrete storage-event delivery of null. -/
theorem C2_delivery_witness :
    (setPosted (set hostBC (construct hostBC "theme" {} emptyStore) demoVal)
      = [("theme", demoVal)] ∧
    (deliverBroadcast ("theme", demoVal)
        (subscribe (construct hostBC "theme" {} emptyStore) 0)).notified
      = [(0, demoVal)]) ∧
    (setWrites (set hostStorage (construct hostStorage "theme" {} emptyStore)
        demoVal)
      = [((construct hostStorage "theme" {} emptyStore).key, demoRaw)] ∧
    (onStorage hostStorage
        (subscribe (construct hostStorage "theme" {} emptyStore) 0)
        (construct hostStorage "theme" {} emptyStore).key
        (some demoRaw)).notified
      = [(0, demoVal)]) :=
  ⟨(C2_delivery hostBC).1 "theme" {} {} emptyStore emptyStore demoVal 0
      rfl rfl,
   (C2_delivery hostStorage).2 "theme" {} emptyStore
      (subscribe (construct hostStorage "theme" {} emptyStore) 0) demoVal
      rfl rfl rfl rfl rfl (by decide) rfl⟩

/-! Claim C3. -/

/-- A polling tick on a store whose entry under the own key equals the
last polled text does not notify anybody. -/
theorem pollTick_unchanged (host : Host) (s : TSState) (store : Store)
    (h : store s.key = s.lastPolledValue) :
    (pollTick host s store).notified = [] := by
  unfold pollTick
  rcases hst : store s.key with _ | raw
  · simp
  · have hl : s.lastPolledValue = some raw := by rw [← h, hst]
    simp [hst, hl]

/-- Instance A of the C3 counterexample: namespace a, key k, broadcast. -/
def instA3 : TSState :=
  construct hostBC "k" { «namespace» := some "a" } emptyStore

/-- Instance B of the C3 counterexample: namespace b, same key k,
broadcast, with one subscriber. -/
def instB3 : TSState :=
  subscribe (construct hostBC "k" { «namespace» := some "b" } emptyStore) 0

/-- Claim C3 is false on the code: on the broadcast transport the channel
is named by the bare key without the namespace prefix, so two instances
with the same key but different namespaces share a channel, and a set on
one notifies the subscriber of the other. -/
theorem C3_counterexample :
    instA3.options.«namespace» = "a" ∧
    instB3.options.«namespace» = "b" ∧
    setPosted (set hostBC instA3 demoVal) = [("k", demoVal)] ∧
    (deliverBroadcast ("k", demoVal) instB3).notified = [(0, demoVal)] := by
  refine ⟨rfl, rfl, rfl, rfl⟩

/-- Claim C3 amended: instances with different logical keys never notify
each other on any transport; instances with different namespaces and
colon-free namespace strings have distinct resolved keys, so they never
notify each other on the storage-event and polling transports; but the
broadcast channel is named by the bare key, so namespace separation does
not isolate the broadcast transport (see the counterexample).  The four
conjuncts: a broadcast message on a foreign channel name is not received;
a storage event for a foreign key is dropped with the state untouched;
construction with different keys or namespaces yields distinct resolved
keys; and a polling instance is unaffected by a store write under a
foreign key. -/
theorem C3_isolation :
    (∀ (B : TSState) (kA kB : String) (v : JVal),
      B.channel = some kB → kA ≠ kB →
      (deliverBroadcast (kA, v) B).notified = []) ∧
    (∀ (host : Host) (B : TSState) (eKey : String) (raw : Option (List Nat)),
      eKey ≠ B.key →
      (onStorage host B eKey raw).notified = [] ∧
      (onStorage host B eKey raw).state = B) ∧
    (∀ (hostA hostB : Host) (kA kB : String) (oA oB : TabStateSyncOptions)
        (stA stB : Store),
      ':' ∉ (resolveOptions oA).«namespace».data →
      ':' ∉ (resolveOptions oB).«namespace».data →
      ((resolveOptions oA).«namespace» ≠ (resolveOptions oB).«namespace» ∨
        kA ≠ kB) →
      (construct hostA kA oA stA).key ≠ (construct hostB kB oB stB).key) ∧
    (∀ (hostB : Host) (kB : String) (oB : TabStateSyncOptions) (stB : Store)
        (cb : Nat) (wkey : String) (data : List Nat),
      hostB.hasBroadcastChannel = false → hostB.safari = true →
      wkey ≠ (construct hostB kB oB stB).key →
      (pollTick hostB (subscribe (construct hostB kB oB stB) cb)
        (fun k2 => if k2 = wkey then some data else stB k2)).notified = []) := by
  refine ⟨?_, ?_, ?_, ?_⟩
  · intro B kA kB v hch hne
    have : (B.channel == some kA) = false := by
      simp [hch, Ne.symm hne]
    simp [deliverBroadcast, receivesBroadcast, this]
  · intro host B eKey raw hne
    have : (eKey != B.key) = true := by simp [hne]
    constructor <;> simp [onStorage, this]
  · intro hostA hostB kA kB oA oB stA stB h1 h2 hne
    simp only [construct]
    exact resolved_key_ne _ _ _ _ h1 h2 hne
  · intro hostB kB oB stB cb wkey data hbc hsaf hne
    apply pollTick_unchanged
    have e1 : (subscribe (construct hostB kB oB stB) cb).key
        = (resolveOptions oB).«namespace» ++ ":" ++ kB := by
      simp [subscribe, construct]
    have e2 : (subscribe (construct hostB kB oB stB) cb).lastPolledValue
        = stB ((resolveOptions oB).«namespace» ++ ":" ++ kB) := by
      simp [subscribe, construct, hbc, hsaf]
    have hne2 : (resolveOptions oB).«namespace» ++ ":" ++ kB ≠ wkey := by
      intro h
      apply hne
      simp [construct, h]
    rw [e1, e2, if_neg hne2]

/-- Witness for the amended claim C3 at concrete keys and namespaces. -/
theorem C3_isolation_witness :
    (deliverBroadcast ("k1", demoVal)
        (subscribe (construct hostBC "other" {} emptyStore) 3)).notified
      = [] ∧
    (onStorage hostStorage
        (subscribe (construct hostStorage "b" {} emptyStore) 0)
        "tss:a" (some demoRaw)).notified = [] ∧
    (construct hostStorage "theme" { «namespace» := some "app" } emptyStore).key
      ≠ (construct hostStorage "theme" {} emptyStore).key ∧
    (pollTick hostPolling
        (subscribe (construct hostPolling "b" {} emptyStore) 0)
        (fun k2 => if k2 = "tss:a" then some demoRaw
                   else emptyStore k2)).notified = [] := by
  refine ⟨?_, ?_, ?_, ?_⟩
  · exact C3_isolation.1
      (subscribe (construct hostBC "other" {} emptyStore) 3) "k1" "other"
      demoVal rfl (by decide)
  · exact ((C3_isolation.2.1 hostStorage
      (subscribe (construct hostStorage "b" {} emptyStore) 0)
      "tss:a" (some demoRaw)) (by decide)).1
  · exact C3_isolation.2.2.1 hostStorage hostStorage "theme" "theme"
      { «namespace» := some "app" } {} emptyStore emptyStore
      (by decide) (by decide) (Or.inl (by decide))
  · exact C3_isolation.2.2.2 hostPolling "b" {} emptyStore 0 "tss:a" demoRaw
      rfl rfl (by decide)

/-! Claim C4. -/

/-- A storage-transport instance with one subscriber, before any set. -/
def s4pre : TSState := subscribe (construct hostStorage "k4" {} emptyStore) 0

/-- The same instance immediately after set, i.e. while the self-write
flag is still raised (the clearing tick has not run yet). -/
def s4post : TSState := setEndState (set hostStorage s4pre demoVal)

/-- Claim C4 is false on the code: the storage-event handler never reads
the self-write flag.  Immediately after a set, while the flag is still
true, a storage event for the own resolved key carrying the just written
well-formed text is processed and notifies the subscriber instead of
being ignored. -/
theorem C4_counterexample :
    s4post.isSetting = true ∧
    (onStorage hostStorage s4post s4post.key (some demoRaw)).notified
      = [(0, demoVal)] := by
  refine ⟨rfl, rfl⟩

/-- Claim C4 amended: the self-write flag suppresses inbound messages
only on the broadcast transport.  The storage-event handler does not
consult the flag: even while it is true, a well-formed event for the own
key notifies all subscribers.  On the polling transport the own write is
suppressed not by the flag but by the last-polled-value comparison: after
a successful set on a Safari host, a polling tick against the store
containing that write notifies nobody. -/
theorem C4_self_write_suppression :
    (∀ (s : TSState) (data : JVal),
      s.isSetting = true → onMessage s data = ⟨s, []⟩) ∧
    (∀ (host : Host) (s : TSState) (raw : List Nat) (j : JVal),
      s.isSetting = true → raw ≠ [] →
      host.jparse (decrypt s.options raw) = some j →
      isValidSyncMessage j = true →
      (onStorage host s s.key (some raw)).notified
        = s.callbacks.map (fun cb => (cb, msgValue j))) ∧
    (∀ (host : Host) (s : TSState) (v : JVal) (data : List Nat)
        (store : Store),
      host.safari = true → s.isBroadcastChannel = false →
      s.destroyed = false →
      encrypt s.options (host.stringify (mkSyncMessage v host.now))
        = some data →
      host.setItemOk s.key data = true →
      (pollTick host (setEndState (set host s v))
        (storeAfterWrites store (setWrites (set host s v)))).notified
        = []) := by
  refine ⟨?_, ?_, ?_⟩
  · intro s data h
    simp [onMessage, h]
  · intro host s raw j _ hraw hparse hvalid
    have hr : raw.isEmpty = false := by simp [hraw]
    simp [onStorage, strFalsy, hr, inboundTry, hparse, hvalid, notifyResult]
  · intro host s v data store hsaf hbc hd henc hok
    apply pollTick_unchanged
    simp [set, hd, hbc, henc, hok, hsaf, setWrites, setEndState,
      storeAfterWrites, notifyResult]

/-- Witness for the amended claim C4 at concrete states: the broadcast
handler drops while the flag is up, the storage handler notifies despite
the raised flag, and a polling tick after an own write is silent. -/
theorem C4_self_write_suppression_witness :
    onMessage s4post demoVal = ⟨s4post, []⟩ ∧
    (onStorage hostStorage s4post s4post.key (some demoRaw)).notified
      = s4post.callbacks.map
          (fun cb => (cb, msgValue (mkSyncMessage demoVal 5))) ∧
    (pollTick hostPolling
      (setEndState (set hostPolling
        (subscribe (construct hostPolling "k4c" {} emptyStore) 0) demoVal))
      (storeAfterWrites emptyStore
        (setWrites (set hostPolling
          (subscribe (construct hostPolling "k4c" {} emptyStore) 0)
          demoVal)))).notified = [] := by
  refine ⟨?_, ?_, ?_⟩
  · exact C4_self_write_suppression.1 s4post demoVal rfl
  · exact C4_self_write_suppression.2.1 hostStorage s4post demoRaw
      (mkSyncMessage demoVal 5) rfl (by decide) rfl rfl
  · exact C4_self_write_suppression.2.2 hostPolling
      (subscribe (construct hostPolling "k4c" {} emptyStore) 0) demoVal
      demoRaw emptyStore rfl rfl rfl rfl rfl

/-! Claim C7. -/

/-- Claim C7: destroy is idempotent on the instance state, clears the
subscriber set and raises the destroyed flag; once destroyed is true,
set returns successfully with the state unchanged, no broadcast post,
no store write and no subscriber invocation. -/
theorem C7_destroy (host : Host) (s : TSState) (v : JVal) :
    destroy host (destroy host s) = destroy host s ∧
    (destroy host s).callbacks = [] ∧
    (destroy host s).destroyed = true ∧
    (s.destroyed = true → set host s v = .ok ⟨s, [], [], []⟩) := by
  refine ⟨?_, ?_, ?_, ?_⟩
  · by_cases h1 : s.isBroadcastChannel && s.channel.isSome
    · simp [destroy, h1]
    · by_cases h2 : host.safari && s.pollingInterval.isSome
      · simp [destroy, h1, h2]
      · simp [destroy, h1, h2]
  · by_cases h1 : s.isBroadcastChannel && s.channel.isSome
    · simp [destroy, h1]
    · by_cases h2 : host.safari && s.pollingInterval.isSome
      · simp [destroy, h1, h2]
      · simp [destroy, h1, h2]
  · by_cases h1 : s.isBroadcastChannel && s.channel.isSome
    · simp [destroy, h1]
    · by_cases h2 : host.safari && s.pollingInterval.isSome
      · simp [destroy, h1, h2]
      · simp [destroy, h1, h2]
  · intro hdes
    simp [set, hdes]

/-- Witness for claim C7 on a concretely destroyed instance. -/
theorem C7_destroy_witness :
    set hostBC (destroy hostBC (construct hostBC "k7" {} emptyStore)) demoVal
      = .ok ⟨destroy hostBC (construct hostBC "k7" {} emptyStore), [], [], []⟩ :=
  (C7_destroy hostBC
    (destroy hostBC (construct hostBC "k7" {} emptyStore)) demoVal).2.2.2 rfl

/-! Claim C5. -/

/-- Claim C5: a store payload that does not parse to a well-formed sync
message (the hypothesis covers unparsable text, corrupt obfuscated text
and parsed objects lacking the value property, a numeric ts or a numeric
v) makes both store-based inbound handlers invoke no subscriber callback.
Both handlers are total functions of the model because the try/catch of
the source is part of their definitions, which is the no-throw half of
the claim. -/
theorem C5_malformed_inbound (host : Host) (s : TSState) (raw : List Nat)
    (eKey : String) (store : Store)
    (h : ∀ j, host.jparse (decrypt s.options raw) = some j →
      isValidSyncMessage j = false) :
    (onStorage host s eKey (some raw)).notified = [] ∧
    (store s.key = some raw → (pollTick host s store).notified = []) := by
  constructor
  · unfold onStorage
    by_cases hc : (eKey != s.key || strFalsy (some raw)) = true
    · simp [hc]
    · simp only [Bool.not_eq_true] at hc
      simp only [hc, Bool.false_eq_true, if_false]
      unfold inboundTry
      rcases hp : host.jparse (decrypt s.options raw) with _ | j
      · simp [hp]
      · have hv := h j hp
        simp [hp, hv]
  · intro hst
    unfold pollTick
    by_cases hc : (raw.isEmpty || (some raw == s.lastPolledValue)) = true
    · simp [hst, hc]
    · simp only [Bool.not_eq_true] at hc
      simp only [hst, hc, Bool.false_eq_true, if_false]
      unfold inboundTry
      rcases hp : host.jparse (decrypt s.options raw) with _ | j
      · simp [hp]
      · have hv := h j hp
        simp [hp, hv]

/-- Witness for claim C5: unparsable text injected under the own key of a
subscribed storage-transport instance, and the same text seen by a
polling read. -/
theorem C5_malformed_inbound_witness :
    (onStorage hostStorage
      (subscribe (construct hostStorage "k5" {} emptyStore) 0)
      (subscribe (construct hostStorage "k5" {} emptyStore) 0).key
      (some (strCodes "not-a-json"))).notified = [] ∧
    (pollTick hostStorage
      (subscribe (construct hostStorage "k5" {} emptyStore) 0)
      (fun _ => some (strCodes "not-a-json"))).notified = [] := by
  have h := C5_malformed_inbound hostStorage
    (subscribe (construct hostStorage "k5" {} emptyStore) 0)
    (strCodes "not-a-json")
    (subscribe (construct hostStorage "k5" {} emptyStore) 0).key
    (fun _ => some (strCodes "not-a-json"))
    (fun j hj => by
      rw [show hostStorage.jparse
        (decrypt (subscribe (construct hostStorage "k5" {} emptyStore)
          0).options (strCodes "not-a-json")) = none from rfl] at hj
      exact Option.noConfusion hj)
  exact ⟨h.1, h.2 rfl⟩

/-! Claim C6. -/

/-- Claim C6: with encryption enabled, a non-empty secret whose code
units are bytes, and any plaintext whose code units are bytes, decrypt
inverts encrypt: encrypt succeeds and mapping decrypt over its result
gives back the plaintext.  This holds for every length, in particular the
empty string and strings of 10000 characters. -/
theorem C6_obfuscation_roundtrip (o : RequiredOptions) (text : List Nat)
    (he : o.enableEncryption = true)
    (_hne : strCodes o.encryptionKey ≠ [])
    (hk : ∀ c ∈ strCodes o.encryptionKey, c < 256)
    (ht : ∀ c ∈ text, c < 256) :
    (encrypt o text).map (decrypt o) = some text := by
  have hx : ∀ c ∈ xorWithKey (strCodes o.encryptionKey) text, c < 256 :=
    xorFrom_lt_256 _ hk _ ht 0
  have hall : ((xorWithKey (strCodes o.encryptionKey) text).all
      (fun c => c < 256)) = true := by
    rw [List.all_eq_true]
    intro x hxm
    simpa using hx x hxm
  have henc : encrypt o text
      = some (b64encode (xorWithKey (strCodes o.encryptionKey) text)) := by
    simp [encrypt, he, btoa, hall]
  have hdecode := b64decode_b64encode _ hx
  have hfin : decrypt o
      (b64encode (xorWithKey (strCodes o.encryptionKey) text)) = text := by
    unfold decrypt
    simp only [he, Bool.not_true, Bool.false_eq_true, if_false]
    rw [show atob (b64encode (xorWithKey (strCodes o.encryptionKey) text))
        = some (xorWithKey (strCodes o.encryptionKey) text) from hdecode]
    simp [xorWithKey, xorFrom_xorFrom]
  rw [henc]
  simp [hfin]

/-- Witness for claim C6 with a concrete secret and plaintext. -/
theorem C6_obfuscation_roundtrip_witness :
    (encrypt
        { «namespace» := "tss", enableEncryption := true,
          encryptionKey := "test-key-123", debug := false }
        (strCodes "hi")).map
      (decrypt
        { «namespace» := "tss", enableEncryption := true,
          encryptionKey := "test-key-123", debug := false })
      = some (strCodes "hi") :=
  C6_obfuscation_roundtrip
    { «namespace» := "tss", enableEncryption := true,
      encryptionKey := "test-key-123", debug := false }
    (strCodes "hi") rfl (by decide) (by decide) (by decide)

/-! Claim C8. -/

/-- Claim C8: on a store-based transport, a successful set performs
exactly one store write, under the resolved key namespace colon key; in
particular a construction with namespace app and key theme uses the
resolved key app:theme, which differs from tss:theme. -/
theorem C8_storage_layout :
    (∀ (host : Host) (key : String) (opts : TabStateSyncOptions)
        (store : Store) (v : JVal) (data : List Nat),
      host.hasBroadcastChannel = false →
      encrypt (resolveOptions opts)
        (host.stringify (mkSyncMessage v host.now)) = some data →
      host.setItemOk ((resolveOptions opts).«namespace» ++ ":" ++ key) data
        = true →
      setWrites (set host (construct host key opts store) v)
        = [((resolveOptions opts).«namespace» ++ ":" ++ key, data)]) ∧
    (∀ (host : Host) (store : Store),
      (construct host "theme" { «namespace» := some "app" } store).key
        = "app:theme" ∧
      (construct host "theme" { «namespace» := some "app" } store).key
        ≠ "tss:theme") := by
  constructor
  · intro host key opts store v data hbc henc hok
    rcases hsaf : host.safari with _ | _ <;>
      simp [set, construct, setWrites, hbc, henc, hok, hsaf, notifyResult]
  · intro host store
    refine ⟨rfl, ?_⟩
    show ("app:theme" : String) ≠ "tss:theme"
    decide

/-- Witness for claim C8 at a concrete instance with namespace app. -/
theorem C8_storage_layout_witness :
    setWrites (set hostStorage
      (construct hostStorage "theme" { «namespace» := some "app" }
        emptyStore) demoVal)
      = [("app:theme", demoRaw)] ∧
    (construct hostStorage "theme" { «namespace» := some "app" }
        emptyStore).key ≠ "tss:theme" :=
  ⟨C8_storage_layout.1 hostStorage "theme" { «namespace» := some "app" }
      emptyStore demoVal demoRaw rfl rfl rfl,
   (C8_storage_layout.2 hostStorage emptyStore).2⟩

/-! Claim C10. -/

/-- Claim C10: the inbound validation of the store transports never
compares the schema version field v of a message against the constant
SCHEMA_VERSION: every parsed object with a value property, any numeric ts
and any numeric v whatsoever is accepted, and its value is delivered to
every subscriber.  The version n below is arbitrary, not required to
equal SCHEMA_VERSION. -/
theorem C10_no_schema_version_check (fs : List (String × JVal)) (val : JVal)
    (t n : Int)
    (h1 : fs.lookup "value" = some val)
    (h2 : fs.lookup "ts" = some (.jnum t))
    (h3 : fs.lookup "v" = some (.jnum n)) :
    isValidSyncMessage (.jobj fs) = true ∧
    (∀ (host : Host) (s : TSState) (raw : List Nat),
      raw ≠ [] →
      host.jparse (decrypt s.options raw) = some (.jobj fs) →
      (onStorage host s s.key (some raw)).notified
        = s.callbacks.map (fun cb => (cb, val))) := by
  have hvalid : isValidSyncMessage (.jobj fs) = true := by
    simp [isValidSyncMessage, h1, h2, h3]
  refine ⟨hvalid, ?_⟩
  intro host s raw hraw hparse
  have hr : raw.isEmpty = false := by simp [hraw]
  have hmv : msgValue (.jobj fs) = val := by simp [msgValue, h1]
  simp [onStorage, strFalsy, hr, inboundTry, hparse, hvalid, notifyResult,
    hmv]

/-- The message object of the C10 witness: schema version 2, not the
SCHEMA_VERSION constant 1. -/
def fs10 : List (String × JVal) :=
  [("value", .jstr "x"), ("ts", .jnum 3), ("v", .jnum 2)]

/-- A host whose JSON.parse yields the version-2 message. -/
def host10 : Host := { hostStorage with jparse := fun _ => some (.jobj fs10) }

/-- A subscribed storage-transport instance for the C10 witness. -/
def s10 : TSState := subscribe (construct host10 "k10" {} emptyStore) 0

/-- Witness for claim C10: the version-2 message is accepted and its
value delivered to the subscriber. -/
theorem C10_no_schema_version_check_witness :
    isValidSyncMessage (.jobj fs10) = true ∧
    (onStorage host10 s10 s10.key (some demoRaw)).notified
      = s10.callbacks.map (fun cb => (cb, .jstr "x")) :=
  ⟨(C10_no_schema_version_check fs10 (.jstr "x") 3 2 rfl rfl rfl).1,
   (C10_no_schema_version_check fs10 (.jstr "x") 3 2 rfl rfl rfl).2
      host10 s10 demoRaw (by decide) rfl⟩

/-! Claim C9. -/

/-- Claim C9: the convenience factory createTabStateSync forwards no
options, so the returned instance carries the default configuration:
namespace tss, encryption disabled, the placeholder encryption key and
debug disabled. -/
theorem C9_factory_defaults (host : Host) (key : String) (store : Store) :
    (createTabStateSync host key store).options =
      { «namespace» := "tss", enableEncryption := false,
        encryptionKey := "change-this-key", debug := false } := rfl

end TabStateSyncModel
